import Mathlib

/-!
Verification development for the HTML repository backend: the agentic
orchestration loop of `src/backend/Agents/patient_agent.py` and
`src/backend/Agents/research_agent.py`, and the community-search adapter
`src/backend/AgentTools/Reddit.py`.

The Python code is shallowly embedded: each relevant Python function is
translated into an executable Lean definition.  External effects (the LLM
oracle, the remote Reddit API, `json.loads`, wall-clock timestamps) are
passed in as explicit function parameters, so that every definition is a
pure function of its inputs.  Python strings are Lean `String`s; parsed
JSON values are the inductive `JVal`; Python dicts that only ever hold
string keys and values are association lists in insertion order.
-/

/-- Substring test on character lists: `charsStartsWith p s` is true when
`p` is an initial segment of `s`.  Models Python prefix comparison used
inside the substring operator. -/
def charsStartsWith : List Char → List Char → Bool
  | [], _ => true
  | _ :: _, [] => false
  | a :: as, b :: bs => a == b && charsStartsWith as bs

/-- Substring occurrence test on character lists: true when the pattern
occurs contiguously anywhere in the text.  Models the Python `in`
operator on strings. -/
def charsHasSub (pat : List Char) : List Char → Bool
  | [] => charsStartsWith pat []
  | c :: rest => charsStartsWith pat (c :: rest) || charsHasSub pat rest

/-- Python `pat in s` on strings: substring containment. -/
def strContains (s pat : String) : Bool :=
  charsHasSub pat.data s.data

/-- Python `s.lower()` (character-wise, the payload strings are
ASCII). -/
def pyLower (s : String) : String :=
  ⟨s.data.map Char.toLower⟩

/-- Python `s.startswith(pat)`. -/
def pyStartsWith (s pat : String) : Bool :=
  charsStartsWith pat.data s.data

/-- Python `s.strip()`: leading and trailing whitespace removed. -/
def pyStrip (s : String) : String :=
  ⟨((s.data.dropWhile Char.isWhitespace).reverse.dropWhile Char.isWhitespace).reverse⟩

/-- Python `s.split(sep)[0]`: the characters before the first
separator. -/
def firstSeg (s : String) (sep : Char) : String :=
  ⟨s.data.takeWhile (fun c => c != sep)⟩

theorem charsStartsWith_append (p t : List Char) :
    charsStartsWith p (p ++ t) = true := by
  induction p with
  | nil => rfl
  | cons a as ih => simp [charsStartsWith, ih]

theorem charsHasSub_of_startsWith (p s : List Char)
    (h : charsStartsWith p s = true) : charsHasSub p s = true := by
  cases s with
  | nil =>
    cases p with
    | nil => rfl
    | cons a as => simp [charsStartsWith] at h
  | cons c rest => simp [charsHasSub, h]

theorem charsHasSub_cons (p : List Char) (c : Char) (s : List Char)
    (h : charsHasSub p s = true) : charsHasSub p (c :: s) = true := by
  simp [charsHasSub, h]

theorem charsHasSub_append_left (p xs ys : List Char)
    (h : charsHasSub p ys = true) : charsHasSub p (xs ++ ys) = true := by
  induction xs with
  | nil => simpa using h
  | cons x xs ih => simpa [List.cons_append] using charsHasSub_cons p x (xs ++ ys) ih

theorem charsHasSub_self_append (p t : List Char) :
    charsHasSub p (p ++ t) = true :=
  charsHasSub_of_startsWith p (p ++ t) (charsStartsWith_append p t)

/-- Parsed JSON values, the possible results of Python `json.loads`.
Numbers are modelled as integers (the payloads the agents handle carry
integer scores and timestamps only). -/
inductive JVal where
  | jnull
  | jbool (b : Bool)
  | jnum (n : Int)
  | jstr (s : String)
  | jarr (xs : List JVal)
  | jobj (fs : List (String × JVal))

/-- Python truthiness of a parsed JSON value (used by
`result_data.get('articles')` in a boolean context). -/
def JVal.truthy : JVal → Bool
  | .jnull => false
  | .jbool b => b
  | .jnum n => n != 0
  | .jstr s => s != ""
  | .jarr xs => !xs.isEmpty
  | .jobj fs => !fs.isEmpty

/-- Python equality between a string and an arbitrary JSON value:
`needle == x` is false whenever `x` is not a string. -/
def jvalEqStr (needle : String) : JVal → Bool
  | .jstr s => s == needle
  | _ => false

mutual

/-- Python `str()` rendering of a parsed JSON value: dicts print with
single-quoted keys, lists with brackets, strings with single quotes
(`repr` inside containers), `None`, `True`, `False` for the atoms.  Only
used for the substring test `'subreddit' in str(result_data[0])` in
`research_agent.synthesis_node`; quoting a top-level string does not
change that test because the pattern contains no quote character. -/
def pyStr : JVal → String
  | .jnull => "None"
  | .jbool b => if b then "True" else "False"
  | .jnum n => toString n
  | .jstr s => "\x27" ++ s ++ "\x27"
  | .jarr xs => "[" ++ pyStrList xs ++ "]"
  | .jobj fs => "\x7b" ++ pyStrFields fs ++ "\x7d"

/-- Comma-joined rendering of the elements of a Python list. -/
def pyStrList : List JVal → String
  | [] => ""
  | [x] => pyStr x
  | x :: y :: rest => pyStr x ++ ", " ++ pyStrList (y :: rest)

/-- Comma-joined rendering of the entries of a Python dict. -/
def pyStrFields : List (String × JVal) → String
  | [] => ""
  | [(k, v)] => "\x27" ++ k ++ "\x27: " ++ pyStr v
  | (k, v) :: f :: rest => "\x27" ++ k ++ "\x27: " ++ pyStr v ++ ", " ++ pyStrFields (f :: rest)

end

/-- First value bound to a key in an association list; models Python dict
lookup for dicts encoded in insertion order. -/
def assocLookup (fs : List (String × String)) (k : String) : Option String :=
  (fs.find? (fun kv => kv.1 == k)).map (fun kv => kv.2)

/-- `d.get(k)` on a parsed JSON object. -/
def objGet (fs : List (String × JVal)) (k : String) : Option JVal :=
  (fs.find? (fun kv => kv.1 == k)).map (fun kv => kv.2)

/-- True when the value is a parsed JSON object carrying the given key. -/
def isObjWithKey (k : String) : JVal → Bool
  | .jobj fs => fs.any (fun kv => kv.1 == k)
  | _ => false

/-- Python dict assignment `d[k] = v` on an insertion-ordered
association list: overwrite in place when the key exists, append
otherwise. -/
def dictInsert (sr : List (String × String)) (k v : String) : List (String × String) :=
  if sr.any (fun kv => kv.1 == k) then
    sr.map (fun kv => if kv.1 == k then (k, v) else kv)
  else sr ++ [(k, v)]

/-! ## Continuation policy (`should_continue` in both agent files) -/

/-- Continuation policy of `patient_agent.should_continue` (lines
294-321): hard stop once `iterations >= 5`; consult the LLM only when at
least 2 tool results are in the history and `search_results` is
non-empty; the LLM reply counts as a stop exactly when it contains the
substring `synthesize` case-insensitively; otherwise continue.  The LLM
reply is passed in as `oracleReply` because the LLM is an external
service. -/
def patient_should_continue (iterations : Nat)
    (search_results : List (String × String)) (toolCallsCount : Nat)
    (oracleReply : String) : String :=
  if iterations ≥ 5 then "synthesize"
  else if toolCallsCount ≥ 2 && !search_results.isEmpty then
    if strContains (pyLower oracleReply) "synthesize" then "synthesize" else "continue"
  else "continue"

/-- Continuation policy of `research_agent.should_continue` (lines
484-523): identical shape but the hard ceiling is `iterations >= 6` and
the LLM is consulted only once at least 3 tool results are recorded. -/
def research_should_continue (iterations : Nat)
    (search_results : List (String × String)) (toolCallsCount : Nat)
    (oracleReply : String) : String :=
  if iterations ≥ 6 then "synthesize"
  else if toolCallsCount ≥ 3 && !search_results.isEmpty then
    if strContains (pyLower oracleReply) "synthesize" then "synthesize" else "continue"
  else "continue"

/-- The continuation policy as the claim words it: below the ceiling,
return `continue` when fewer than `minRounds` tool rounds have completed
or no search results have been gathered, otherwise delegate to the
Oracle and synthesize exactly when the reply contains `synthesize`
case-insensitively.  The claim fixes `minRounds = 2` for both variants;
the parameter lets the corrected statement name the thresholds the code
actually uses. -/
def shouldContinueClaimed (maxIterations minRounds : Nat) (iterations : Nat)
    (search_results : List (String × String)) (toolCallsCount : Nat)
    (oracleReply : String) : String :=
  if iterations ≥ maxIterations then "synthesize"
  else if toolCallsCount < minRounds || search_results.isEmpty then "continue"
  else if strContains (pyLower oracleReply) "synthesize" then "synthesize" else "continue"

/-! ## Tool execution and result ingestion (`process_tools_node`) -/

/-- A tool invocation request attached by the LLM to its last message. -/
structure ToolCall where
  name : String
  args : List (String × String)

/-- Behaviour of langgraph `ToolNode.invoke` on the tool calls of the
last message: every attached tool call is executed and yields one tool
result message, in nomination order.  `execute` models dispatch to the
adapters. -/
def toolNodeResults (execute : ToolCall → String) (calls : List ToolCall) : List String :=
  calls.map execute

/-- Result classification heuristic of
`research_agent.process_tools_node` (lines 271-282): keyword inspection
of the lowercased content, first match wins, default `general`. -/
def classify (content : String) : String :=
  let c := pyLower content
  if strContains c "clinical trial" || strContains c "randomized" then "clinical_evidence"
  else if strContains c "mechanism" || strContains c "pathway" || strContains c "molecular" then "mechanistic_research"
  else if strContains c "patient" || strContains c "treatment experience" then "patient_evidence"
  else if strContains c "biomarker" || strContains c "genetic" then "biomarker_research"
  else "general"

/-- Working state of one patient-agent run: the fields of `AgentState`
that `process_tools_node` and `should_continue` read and write.  A
`tool_calls_history` entry is the pair (timestamp, raw result). -/
structure PState where
  search_results : List (String × String)
  tool_calls_history : List (String × String)
  iterations : Nat

/-- Working state of one research-agent run.  A `tool_calls_history`
entry is the triple (timestamp, raw result, category). -/
structure RState where
  search_results : List (String × String)
  tool_calls_history : List (String × String × String)
  iterations : Nat

/-- Ingestion loop of `patient_agent.process_tools_node` (lines
195-206): each tool result message is stored in `search_results` under
its timestamp and appended to `tool_calls_history`.  `tsOf i` is the
`datetime.now().isoformat()` string taken while processing the i-th
message of the round. -/
def pIngest (tsOf : Nat → String) (i : Nat) : List String → PState → PState
  | [], s => s
  | content :: rest, s =>
      pIngest tsOf (i + 1) rest
        { s with
          search_results := dictInsert s.search_results (tsOf i) content,
          tool_calls_history := s.tool_calls_history ++ [(tsOf i, content)] }

/-- Ingestion loop of `research_agent.process_tools_node` (lines
266-291): each message is classified, stored under the key
`category_timestamp`, and appended to the history with its category. -/
def rIngest (tsOf : Nat → String) (i : Nat) : List String → RState → RState
  | [], s => s
  | content :: rest, s =>
      let cat := classify content
      rIngest tsOf (i + 1) rest
        { s with
          search_results := dictInsert s.search_results (cat ++ "_" ++ tsOf i) content,
          tool_calls_history := s.tool_calls_history ++ [(tsOf i, content, cat)] }

/-- `patient_agent.process_tools_node` (lines 180-214): run langgraph
ToolNode on the nominated tool calls of the last message, ingest every
resulting message, and increment `iterations` once per round. -/
def patient_process_tools (execute : ToolCall → String) (tsOf : Nat → String)
    (calls : List ToolCall) (s : PState) : PState :=
  let s' := pIngest tsOf 0 (toolNodeResults execute calls) s
  { s' with iterations := s.iterations + 1 }

/-- `research_agent.process_tools_node` (lines 254-299): same round
shape with categorised ingestion. -/
def research_process_tools (execute : ToolCall → String) (tsOf : Nat → String)
    (calls : List ToolCall) (s : RState) : RState :=
  let s' := rIngest tsOf 0 (toolNodeResults execute calls) s
  { s' with iterations := s.iterations + 1 }

/-- Expected history records appended by the patient ingestion loop,
indexed from `i`. -/
def pRecords (tsOf : Nat → String) (i : Nat) : List String → List (String × String)
  | [] => []
  | c :: rest => (tsOf i, c) :: pRecords tsOf (i + 1) rest

/-- Expected history records appended by the research ingestion loop,
indexed from `i`. -/
def rRecords (tsOf : Nat → String) (i : Nat) : List String → List (String × String × String)
  | [] => []
  | c :: rest => (tsOf i, c, classify c) :: rRecords tsOf (i + 1) rest

theorem pIngest_history (tsOf : Nat → String) :
    ∀ (msgs : List String) (i : Nat) (s : PState),
      (pIngest tsOf i msgs s).tool_calls_history
        = s.tool_calls_history ++ pRecords tsOf i msgs := by
  intro msgs
  induction msgs with
  | nil => intro i s; simp [pIngest, pRecords]
  | cons c rest ih =>
      intro i s
      simp [pIngest, pRecords, ih]

theorem rIngest_history (tsOf : Nat → String) :
    ∀ (msgs : List String) (i : Nat) (s : RState),
      (rIngest tsOf i msgs s).tool_calls_history
        = s.tool_calls_history ++ rRecords tsOf i msgs := by
  intro msgs
  induction msgs with
  | nil => intro i s; simp [rIngest, rRecords]
  | cons c rest ih =>
      intro i s
      simp [rIngest, rRecords, ih]

theorem pRecords_length (tsOf : Nat → String) :
    ∀ (msgs : List String) (i : Nat), (pRecords tsOf i msgs).length = msgs.length := by
  intro msgs
  induction msgs with
  | nil => intro i; rfl
  | cons c rest ih => intro i; simp [pRecords, ih]

theorem rRecords_length (tsOf : Nat → String) :
    ∀ (msgs : List String) (i : Nat), (rRecords tsOf i msgs).length = msgs.length := by
  intro msgs
  induction msgs with
  | nil => intro i; rfl
  | cons c rest ih => intro i; simp [rRecords, ih]

theorem pIngest_iterations (tsOf : Nat → String) :
    ∀ (msgs : List String) (i : Nat) (s : PState),
      (pIngest tsOf i msgs s).iterations = s.iterations := by
  intro msgs
  induction msgs with
  | nil => intro i s; rfl
  | cons c rest ih => intro i s; simp [pIngest, ih]

theorem rIngest_iterations (tsOf : Nat → String) :
    ∀ (msgs : List String) (i : Nat) (s : RState),
      (rIngest tsOf i msgs s).iterations = s.iterations := by
  intro msgs
  induction msgs with
  | nil => intro i s; rfl
  | cons c rest ih => intro i s; simp [rIngest, ih]

/-! ## Evidence aggregation (`synthesis_node` in both agent files)

`json.loads` is passed in as a parameter `loads : String → Option JVal`;
`none` models the call raising.  A stored payload is the raw string kept
in `search_results`. -/

/-- True when the raw payload starts with a brace or a bracket, the
guard both agents use before attempting `json.loads` in
`research_agent.synthesis_node`. -/
def looksJson (s : String) : Bool :=
  pyStartsWith s "\x7b" || pyStartsWith s "["

/-- One payload of the evidence check in `research_agent.synthesis_node`
(lines 308-319).  Empty payloads are skipped; payloads that look like
JSON and parse are external evidence when they are a dict with a truthy
`articles` entry or a non-empty list; payloads that look like JSON but
fail to parse fall into the `except` arm, which counts stripped length
above 50; a payload that does not look like JSON is kept as the raw
string, so both `isinstance` tests fail and it never counts. -/
def payloadHasEvidence (loads : String → Option JVal) (raw : String) : Bool :=
  if raw == "" then false
  else if looksJson raw then
    match loads raw with
    | some (.jobj fs) => ((objGet fs "articles").map JVal.truthy).getD false
    | some (.jarr xs) => !xs.isEmpty
    | some _ => false
    | none => (pyStrip raw).length > 50
  else false

/-- `hasExternalEvidence` of the spec: the `has_external_data` loop of
`research_agent.synthesis_node` (lines 304-319), which breaks at the
first payload that counts. -/
def hasExternalEvidence (loads : String → Option JVal)
    (search_results : List (String × String)) : Bool :=
  search_results.any (fun kv => payloadHasEvidence loads kv.2)

/-- Dict-with-truthy-articles test, one disjunct of the corrected
evidence characterisation. -/
def isDictWithTruthyArticles : JVal → Bool
  | .jobj fs => ((objGet fs "articles").map JVal.truthy).getD false
  | _ => false

/-- Non-empty-list test, the other structured disjunct. -/
def isNonEmptyList : JVal → Bool
  | .jarr xs => !xs.isEmpty
  | _ => false

/-- The corrected per-payload evidence condition, stated as a flat
disjunction: a non-empty payload that looks like JSON and either parses
to a dict with truthy `articles` or to a non-empty list, or fails to
parse and has stripped length above 50.  Plain text payloads never
count. -/
def payloadEvidenceAmended (loads : String → Option JVal) (raw : String) : Bool :=
  (raw != "" && looksJson raw
      && ((loads raw).map (fun v => isDictWithTruthyArticles v || isNonEmptyList v)).getD false)
    || (raw != "" && looksJson raw && (loads raw).isNone && (pyStrip raw).length > 50)

/-- The per-payload evidence condition as claim C4 words it: any payload
parsing to a non-empty structured result counts, and otherwise an
unstructured text payload counts once its length exceeds 50. -/
def payloadEvidenceClaimed (loads : String → Option JVal) (raw : String) : Bool :=
  match loads raw with
  | some (.jobj fs) => ((objGet fs "articles").map JVal.truthy).getD false
  | some (.jarr xs) => !xs.isEmpty
  | _ => raw.length > 50

/-- `hasExternalEvidence` as claim C4 words it. -/
def hasExternalEvidenceClaimed (loads : String → Option JVal)
    (search_results : List (String × String)) : Bool :=
  search_results.any (fun kv => payloadEvidenceClaimed loads kv.2)

/-- Python subscript `d[k]` for the parsed payloads: defined on dicts
with the key present, a TypeError (modelled as `Except.error`) on
everything the extraction code can reach otherwise. -/
def subscript (v : JVal) (k : String) : Except Unit JVal :=
  match v with
  | .jobj fs =>
      match objGet fs k with
      | some x => .ok x
      | none => .error ()
  | _ => .error ()

/-- Python `in` on a parsed payload: key membership on dicts, element
equality on lists, substring on strings, TypeError otherwise. -/
def pyContains (needle : String) : JVal → Except Unit Bool
  | .jobj fs => .ok (fs.any (fun kv => kv.1 == needle))
  | .jarr xs => .ok (xs.any (jvalEqStr needle))
  | .jstr s => .ok (strContains s needle)
  | _ => .error ()

/-- `d.get(k, default)` restricted to string values.  A present
non-string value is modelled as the error path: the claims only exercise
string-valued `title`, `id` and `subreddit` fields, and the downstream
Python code (length tests, slicing, later serialisation) is only
specified on strings. -/
def getStr (fs : List (String × JVal)) (k dflt : String) : Except Unit String :=
  match objGet fs k with
  | none => .ok dflt
  | some (.jstr s) => .ok s
  | some _ => .error ()

/-- Citation built per article by `research_agent.synthesis_node`
(lines 446-453); `catKey` is derived from the storage key. -/
def researchArticleCite (catKey : String) : JVal → Except Unit (List (String × String))
  | .jobj fs =>
      match getStr fs "title" "Unknown", getStr fs "id" "" with
      | .ok t, .ok i =>
          .ok [("type", "PLOS Research Paper"), ("title", t), ("id", i), ("category", catKey)]
      | _, _ => .error ()
  | _ => .error ()

/-- Citation built per Reddit post by `research_agent.synthesis_node`
(lines 458-464), including the 100-character title truncation. -/
def researchRedditCite : JVal → Except Unit (List (String × String))
  | .jobj fs =>
      match getStr fs "title" "", getStr fs "title" "Patient Report", getStr fs "subreddit" "" with
      | .ok tLen, .ok tBase, .ok sub =>
          .ok [("type", "Reddit Patient Experience"),
               ("title", if tLen.length > 100 then tBase.take 100 ++ "..." else tBase),
               ("subreddit", sub), ("category", "patient_evidence")]
      | _, _, _ => .error ()
  | _ => .error ()

/-- Citation built per article by `patient_agent.synthesis_node`
(lines 268-273). -/
def patientArticleCite : JVal → Except Unit (List (String × String))
  | .jobj fs =>
      match getStr fs "title" "Unknown", getStr fs "id" "" with
      | .ok t, .ok i => .ok [("type", "PLOS Research"), ("title", t), ("id", i)]
      | _, _ => .error ()
  | _ => .error ()

/-- Citation built per Reddit post by `patient_agent.synthesis_node`
(lines 278-283). -/
def patientRedditCite : JVal → Except Unit (List (String × String))
  | .jobj fs =>
      match getStr fs "title" "Unknown", getStr fs "subreddit" "" with
      | .ok t, .ok sub => .ok [("type", "Reddit Post"), ("title", t), ("subreddit", sub)]
      | _, _ => .error ()
  | _ => .error ()

/-- Python for-loop that appends one citation per item: an exception on
an item aborts the loop for this payload but keeps the citations already
appended (the surrounding `except` only skips to the next payload). -/
def citeFold (f : JVal → Except Unit (List (String × String))) :
    List JVal → List (List (String × String))
  | [] => []
  | x :: xs =>
      match f x with
      | .ok c => c :: citeFold f xs
      | .error _ => []

/-- Category tag of `research_agent.synthesis_node` line 452:
`key.split('_')[0] if '_' in key else 'research'`. -/
def categoryOfKey (key : String) : String :=
  if strContains key "_" then firstSeg key '_' else "research"

/-- Citations extracted from one stored payload by
`research_agent.synthesis_node` (lines 440-467): parse the payload if it
looks like JSON, wrap it as a `content` dict otherwise; the `articles`
branch takes the first 3 articles, the Reddit branch fires when the
payload is a non-empty list whose first element renders with the word
`subreddit` and takes the first 3 posts; any exception skips the rest of
this payload. -/
def researchExtractOne (loads : String → Option JVal) (key raw : String) :
    List (List (String × String)) :=
  let core : JVal → List (List (String × String)) := fun v =>
    match pyContains "articles" v with
    | .error _ => []
    | .ok true =>
        match subscript v "articles" with
        | .ok (.jarr arts) => citeFold (researchArticleCite (categoryOfKey key)) (arts.take 3)
        | _ => []
    | .ok false =>
        match v with
        | .jarr (x :: xs) =>
            if strContains (pyStr x) "subreddit" then
              citeFold researchRedditCite ((x :: xs).take 3)
            else []
        | _ => []
  if looksJson raw then
    match loads raw with
    | none => []
    | some v => core v
  else core (.jobj [("content", .jstr raw)])

/-- Source extraction loop of `research_agent.synthesis_node`: citations
of every stored payload in insertion order. -/
def researchExtract (loads : String → Option JVal)
    (search_results : List (String × String)) : List (List (String × String)) :=
  (search_results.map (fun kv => researchExtractOne loads kv.1 kv.2)).flatten

/-- Citations extracted from one stored payload by
`patient_agent.synthesis_node` (lines 261-285): `json.loads` is applied
to every payload (no prefix guard), a failure skips the payload; the
`articles` branch has no limit, the Reddit branch checks `subreddit`
membership in the first element and takes the first 3 posts. -/
def patientExtractOne (loads : String → Option JVal) (raw : String) :
    List (List (String × String)) :=
  match loads raw with
  | none => []
  | some v =>
      match pyContains "articles" v with
      | .error _ => []
      | .ok true =>
          match subscript v "articles" with
          | .ok (.jarr arts) => citeFold patientArticleCite arts
          | _ => []
      | .ok false =>
          match v with
          | .jarr (x :: xs) =>
              match pyContains "subreddit" x with
              | .ok true => citeFold patientRedditCite ((x :: xs).take 3)
              | _ => []
          | _ => []

/-- Source extraction loop of `patient_agent.synthesis_node`. -/
def patientExtract (loads : String → Option JVal)
    (search_results : List (String × String)) : List (List (String × String)) :=
  (search_results.map (fun kv => patientExtractOne loads kv.2)).flatten

/-! ## Synthesis outcome -/

/-- Which synthesis prompt a run builds. -/
inductive PromptMode where
  | standard
  | fallback
deriving DecidableEq, Repr

/-- What is substituted for `search_results` in the synthesis prompt:
either the JSON rendering of the stored payloads or the fixed string
`Limited external data retrieved` of the research fallback branch. -/
inductive PromptEvidence where
  | rendered (search_results : List (String × String))
  | limitedNote
deriving DecidableEq, Repr

/-- Observable outcome of a synthesis node: the prompt mode, the
evidence actually placed into the prompt, and the extracted
`sources_used`. -/
structure SynthesisOutcome where
  promptMode : PromptMode
  promptEvidence : PromptEvidence
  sources_used : List (List (String × String))
deriving DecidableEq, Repr

/-- The single `Foundational Knowledge` citation appended by
`research_agent.synthesis_node` (lines 469-474) in fallback mode. -/
def foundationalCite : List (String × String) :=
  [("type", "Foundational Knowledge"),
   ("title", "Established oncology research consensus"),
   ("note", "External databases were not accessible - analysis based on training knowledge"),
   ("limitation", "Current research may not be reflected")]

/-- `research_agent.synthesis_node` (lines 301-482): compute
`has_external_data`; with evidence use the standard prompt over the
rendered results and run extraction, otherwise use the fallback prompt,
put the fixed limited-data note where the evidence would go, and emit
exactly the single foundational-knowledge citation. -/
def research_synthesis (loads : String → Option JVal)
    (search_results : List (String × String)) : SynthesisOutcome :=
  let h := hasExternalEvidence loads search_results
  { promptMode := if h then .standard else .fallback,
    promptEvidence := if h then .rendered search_results else .limitedNote,
    sources_used := if h then researchExtract loads search_results else [foundationalCite] }

/-- `patient_agent.synthesis_node` (lines 217-292): a single prompt,
always fed the rendered `search_results`, with extraction run
unconditionally; there is no fallback branch. -/
def patient_synthesis (loads : String → Option JVal)
    (search_results : List (String × String)) : SynthesisOutcome :=
  { promptMode := .standard,
    promptEvidence := .rendered search_results,
    sources_used := patientExtract loads search_results }

/-! ## Community search adapter (`AgentTools/Reddit.py`, class RedditSearch) -/

/-- One discussion post as `RedditSearch._run` shapes it (lines
121-129). -/
structure RedditPost where
  subreddit : String
  title : String
  score : Int
  url : String
  num_comments : Int
  created_utc : Int
  selftext : String
deriving DecidableEq, Repr

/-- Body-text truncation in `RedditSearch._run` line 128:
`post.selftext[:500] if post.selftext else ""`. -/
def truncPost (p : RedditPost) : RedditPost :=
  { p with selftext := if p.selftext != "" then p.selftext.take 500 else "" }

/-- Serialised return value of `RedditSearch._run`: either
`json.dumps` of the post list or `json.dumps` of the single-element
error list.  `json.dumps` is deterministic on equal inputs, so two
outputs are byte-identical exactly when they are equal here. -/
inductive RedditOutput where
  | posts (ps : List RedditPost)
  | errorPayload (msg : String)
deriving DecidableEq, Repr

/-- Cache key of `RedditSearch._generate_cache_key` (lines 74-77): the
md5 hexdigest of `query-subreddit-max_records-sort_by`.  md5 is modelled
by the preimage string itself (collisions are outside scope). -/
def redditCacheKey (query subreddit : String) (max_records : Nat) (sort_by : String) : String :=
  query ++ "-" ++ subreddit ++ "-" ++ toString max_records ++ "-" ++ sort_by

/-- Mutable attributes of a `RedditSearch` instance: the in-memory
cache, the `results` field and the last successful invocation time. -/
structure RedditState where
  cache : List (String × List RedditPost)
  results : List RedditPost
  last_invoke : Nat
deriving Repr

/-- Cache lookup of `RedditSearch._get_cached_results` (lines 79-83). -/
def redditCacheGet (cache : List (String × List RedditPost)) (key : String) :
    Option (List RedditPost) :=
  (cache.find? (fun kv => kv.1 == key)).map (fun kv => kv.2)

/-- Cache write of `RedditSearch._cache_results` (lines 85-87). -/
def redditCachePut (cache : List (String × List RedditPost)) (key : String)
    (results : List RedditPost) : List (String × List RedditPost) :=
  if cache.any (fun kv => kv.1 == key) then
    cache.map (fun kv => if kv.1 == key then (key, results) else kv)
  else cache ++ [(key, results)]

/-- Remote branch of `RedditSearch._run` (lines 109-150): reset
`results`, perform the remote search (`remote` is the PRAW call for this
invocation; `.error` models any exception inside the `try`), truncate
and collect the posts, update `last_invoke` only on success, and cache
the results only when at least one post was found.  The third component
records that a remote request was performed. -/
def redditRunRemote (remote : Except String (List RedditPost)) (now : Nat)
    (st : RedditState) (key : String) : RedditOutput × RedditState × Bool :=
  match remote with
  | .error e =>
      (.errorPayload ("Reddit search failed: " ++ e), { st with results := [] }, true)
  | .ok posts =>
      let results := posts.map truncPost
      let st1 := { st with results := results, last_invoke := now }
      let st2 :=
        if !results.isEmpty then { st1 with cache := redditCachePut st1.cache key results }
        else st1
      (.posts results, st2, true)

/-- `RedditSearch._run` (lines 89-150): serve from the cache when the
cached entry is truthy (a non-empty post list), otherwise go remote.
The rate-limit sleep (lines 113-114) delays the caller but has no
observable effect on the returned payload or the state modelled here. -/
def RedditSearch_run (remote : Except String (List RedditPost)) (now : Nat)
    (st : RedditState) (query subreddit : String) (max_records : Nat) (sort_by : String) :
    RedditOutput × RedditState × Bool :=
  let key := redditCacheKey query subreddit max_records sort_by
  match redditCacheGet st.cache key with
  | some cached =>
      if !cached.isEmpty then (.posts cached, st, false)
      else redditRunRemote remote now st key
  | none => redditRunRemote remote now st key

/-! ## The orchestration loop

Both agent graphs are `reason -> (call_tools -> process_tools)* ->
synthesize -> END`, with the starred part repeated while
`should_continue` returns `continue`.  The environment supplies, per
round `k`, the tool calls the LLM nominates, the dispatch function, the
per-message timestamps and the continuation reply; the loop below runs
the rounds and stops at the round after which `should_continue` returns
`synthesize`, which is when the graph moves to the synthesis node and
then terminates. -/

/-- Everything external that one run of the tool loop consumes. -/
structure LoopEnv where
  calls : Nat → List ToolCall
  execute : ToolCall → String
  ts : Nat → Nat → String
  reply : Nat → String

/-- Tool rounds of the patient agent, driven by
`patient_agent.should_continue`; `fuel` bounds the recursion and `k` is
the round index.  Returns the state at the moment the graph leaves the
loop for the synthesis node, or `none` if the fuel ran out first. -/
def patientLoop (env : LoopEnv) : Nat → Nat → PState → Option PState
  | 0, _, _ => none
  | fuel + 1, k, s =>
      let s' := patient_process_tools env.execute (env.ts k) (env.calls k) s
      if patient_should_continue s'.iterations s'.search_results
          s'.tool_calls_history.length (env.reply k) == "synthesize" then some s'
      else patientLoop env fuel (k + 1) s'

/-- Tool rounds of the research agent, driven by
`research_agent.should_continue`. -/
def researchLoop (env : LoopEnv) : Nat → Nat → RState → Option RState
  | 0, _, _ => none
  | fuel + 1, k, s =>
      let s' := research_process_tools env.execute (env.ts k) (env.calls k) s
      if research_should_continue s'.iterations s'.search_results
          s'.tool_calls_history.length (env.reply k) == "synthesize" then some s'
      else researchLoop env fuel (k + 1) s'

/-- A full patient run from the initial state of `PatientAgent.query`
(`search_results = {}`, empty history, `iterations = 0`), given fuel 5:
the iteration ceiling of the patient variant. -/
def patientRun (env : LoopEnv) : Option PState :=
  patientLoop env 5 0 { search_results := [], tool_calls_history := [], iterations := 0 }

/-- A full research run from the initial state of `ResearchAgent.query`,
given fuel 6: the iteration ceiling of the research variant. -/
def researchRun (env : LoopEnv) : Option RState :=
  researchLoop env 6 0 { search_results := [], tool_calls_history := [], iterations := 0 }

/-! ## Failure path of `query` (both agents) -/

/-- The record `ChatsDatabase.add_response` builds and returns
(`CustomTools/ChatsManager.py` lines 129-147), for a response message:
the stored answer object the caller of `query` receives.  Values inside
`additional_data` are rendered as strings. -/
structure StoredResponse where
  sender : String
  content : String
  reasoning : Option (List String)
  sources : Option (List (List (String × String)))
  tools : Option (List String)
  timestamp : Nat
  additional_data : Option (List (String × String))
deriving DecidableEq, Repr

/-- Fixed apology text of the patient-agent exception handler
(`patient_agent.query` line 459). -/
def PATIENT_APOLOGY : String :=
  "I apologize, but I\x27m having trouble reaching my sources, so I am unable find relevant information to answer your question."

/-- Fixed error text of the research-agent exception handler
(`research_agent.query` lines 667-686).  The string interpolates nothing
from the exception. -/
def RESEARCH_ERROR_RESPONSE : String :=
  "I apologize, but I encountered a technical error while processing your cancer research query.\n\n**Error Details:** System encountered an unexpected error during analysis.\n\n**Suggested Alternatives:**\n1. **Simplify your query** - Try asking about specific cancer types or treatments with simpler terms\n2. **Break down complex questions** - Ask about individual aspects separately\n3. **Check API status** - Our research databases may be temporarily limited\n\n**What you can do:**\n- Rephrase your question using basic cancer terminology\n- Ask about specific aspects of your research interest\n- Try again in a few moments\n\n**Example simplified queries:**\n- \"What is lung cancer treatment?\"\n- \"How does chemotherapy work?\"\n- \"What are EGFR inhibitors?\"\n\nI\x27m designed to provide detailed technical analysis when our research tools are fully functional."

/-- Answer object returned by `PatientAgent.query` (lines 453-464) when
an exception (Oracle invocation failure included) escapes the agent
invocation: the fixed apology as content, no reasoning, no sources, and
`additional_data` holding the failed status and the exception rendering.
Assumes the conversation-store append itself succeeds. -/
def patient_query_failure (excMsg : String) (ts : Nat) : StoredResponse :=
  { sender := "AI",
    content := PATIENT_APOLOGY,
    reasoning := none,
    sources := none,
    tools := none,
    timestamp := ts,
    additional_data := some [("status", "failed"), ("error", excMsg)] }

/-- Answer object returned by `ResearchAgent.query` (lines 663-699) on
an escaped exception. -/
def research_query_failure (excMsg : String) (ts : Nat) : StoredResponse :=
  { sender := "AI",
    content := RESEARCH_ERROR_RESPONSE,
    reasoning := none,
    sources := none,
    tools := none,
    timestamp := ts,
    additional_data := some
      [("status", "failed"), ("error", excMsg), ("error_type", "system_error"),
       ("suggestions_provided", "True")] }

/-! ## Helper lemmas for the termination claim -/

theorem patient_process_tools_iterations (execute : ToolCall → String)
    (tsOf : Nat → String) (calls : List ToolCall) (s : PState) :
    (patient_process_tools execute tsOf calls s).iterations = s.iterations + 1 := rfl

theorem research_process_tools_iterations (execute : ToolCall → String)
    (tsOf : Nat → String) (calls : List ToolCall) (s : RState) :
    (research_process_tools execute tsOf calls s).iterations = s.iterations + 1 := rfl

theorem patient_sc_ceiling (it : Nat) (sr : List (String × String)) (tc : Nat)
    (r : String) (h : 5 ≤ it) : patient_should_continue it sr tc r = "synthesize" := by
  unfold patient_should_continue
  rw [if_pos h]

theorem research_sc_ceiling (it : Nat) (sr : List (String × String)) (tc : Nat)
    (r : String) (h : 6 ≤ it) : research_should_continue it sr tc r = "synthesize" := by
  unfold research_should_continue
  rw [if_pos h]

theorem patientLoop_terminates (env : LoopEnv) :
    ∀ (fuel k : Nat) (s : PState), s.iterations + (fuel + 1) = 5 →
      ∃ f, patientLoop env (fuel + 1) k s = some f ∧ f.iterations ≤ 5 := by
  intro fuel
  induction fuel with
  | zero =>
      intro k s hs
      refine ⟨patient_process_tools env.execute (env.ts k) (env.calls k) s, ?_, ?_⟩
      · have h5 : (patient_process_tools env.execute (env.ts k) (env.calls k) s).iterations = 5 := by
          rw [patient_process_tools_iterations]; omega
        simp [patientLoop, patient_sc_ceiling _ _ _ _ (le_of_eq h5.symm)]
      · rw [patient_process_tools_iterations]; omega
  | succ fuel ih =>
      intro k s hs
      have hit : (patient_process_tools env.execute (env.ts k) (env.calls k) s).iterations
          = s.iterations + 1 := patient_process_tools_iterations _ _ _ _
      by_cases hsc : patient_should_continue
          (patient_process_tools env.execute (env.ts k) (env.calls k) s).iterations
          (patient_process_tools env.execute (env.ts k) (env.calls k) s).search_results
          (patient_process_tools env.execute (env.ts k) (env.calls k) s).tool_calls_history.length
          (env.reply k) = "synthesize"
      · refine ⟨patient_process_tools env.execute (env.ts k) (env.calls k) s, ?_, by omega⟩
        simp [patientLoop, hsc]
      · have step : patientLoop env (fuel + 1 + 1) k s
            = patientLoop env (fuel + 1) (k + 1)
                (patient_process_tools env.execute (env.ts k) (env.calls k) s) := by
          simp [patientLoop, hsc]
        rw [step]
        exact ih (k + 1) _ (by omega)

theorem researchLoop_terminates (env : LoopEnv) :
    ∀ (fuel k : Nat) (s : RState), s.iterations + (fuel + 1) = 6 →
      ∃ f, researchLoop env (fuel + 1) k s = some f ∧ f.iterations ≤ 6 := by
  intro fuel
  induction fuel with
  | zero =>
      intro k s hs
      refine ⟨research_process_tools env.execute (env.ts k) (env.calls k) s, ?_, ?_⟩
      · have h6 : (research_process_tools env.execute (env.ts k) (env.calls k) s).iterations = 6 := by
          rw [research_process_tools_iterations]; omega
        simp [researchLoop, research_sc_ceiling _ _ _ _ (le_of_eq h6.symm)]
      · rw [research_process_tools_iterations]; omega
  | succ fuel ih =>
      intro k s hs
      have hit : (research_process_tools env.execute (env.ts k) (env.calls k) s).iterations
          = s.iterations + 1 := research_process_tools_iterations _ _ _ _
      by_cases hsc : research_should_continue
          (research_process_tools env.execute (env.ts k) (env.calls k) s).iterations
          (research_process_tools env.execute (env.ts k) (env.calls k) s).search_results
          (research_process_tools env.execute (env.ts k) (env.calls k) s).tool_calls_history.length
          (env.reply k) = "synthesize"
      · refine ⟨research_process_tools env.execute (env.ts k) (env.calls k) s, ?_, by omega⟩
        simp [researchLoop, hsc]
      · have step : researchLoop env (fuel + 1 + 1) k s
            = researchLoop env (fuel + 1) (k + 1)
                (research_process_tools env.execute (env.ts k) (env.calls k) s) := by
          simp [researchLoop, hsc]
        rw [step]
        exact ih (k + 1) _ (by omega)

/-- C1: for every environment (tool behaviour and Oracle replies), a run
started in the Reasoning state reaches the Terminal state within
MAX_ITERATIONS completed tool rounds (5 in the patient variant, 6 in the
research variant): once `iterations` reaches the ceiling,
`should_continue` returns `synthesize` unconditionally, even if the
Oracle always replies `continue`. -/
theorem c1_iteration_ceiling_termination :
    (∀ (it : Nat) (sr : List (String × String)) (tc : Nat) (r : String),
        5 ≤ it → patient_should_continue it sr tc r = "synthesize") ∧
    (∀ (it : Nat) (sr : List (String × String)) (tc : Nat) (r : String),
        6 ≤ it → research_should_continue it sr tc r = "synthesize") ∧
    (∀ env : LoopEnv, ∃ f, patientRun env = some f ∧ f.iterations ≤ 5) ∧
    (∀ env : LoopEnv, ∃ f, researchRun env = some f ∧ f.iterations ≤ 6) := by
  refine ⟨patient_sc_ceiling, research_sc_ceiling, ?_, ?_⟩
  · intro env
    exact patientLoop_terminates env 4 0 _ (by simp)
  · intro env
    exact researchLoop_terminates env 5 0 _ (by simp)

/-- Concrete environment for the termination witness: no tool results
and an Oracle that always replies `continue`. -/
def constEnv : LoopEnv :=
  { calls := fun _ => [], execute := fun _ => "", ts := fun _ _ => "", reply := fun _ => "continue" }

/-- Witness for C1 at concrete inputs: the ceiling forces `synthesize`
at exactly the ceiling value, and the stubborn-Oracle runs terminate. -/
theorem c1_iteration_ceiling_termination_witness :
    (5 ≤ 5 ∧ patient_should_continue 5 [] 0 "continue" = "synthesize") ∧
    (6 ≤ 6 ∧ research_should_continue 6 [] 0 "continue" = "synthesize") ∧
    (∃ f, patientRun constEnv = some f ∧ f.iterations ≤ 5) ∧
    (∃ f, researchRun constEnv = some f ∧ f.iterations ≤ 6) :=
  ⟨⟨le_refl 5, c1_iteration_ceiling_termination.1 5 [] 0 "continue" (le_refl 5)⟩,
   ⟨le_refl 6, c1_iteration_ceiling_termination.2.1 6 [] 0 "continue" (le_refl 6)⟩,
   c1_iteration_ceiling_termination.2.2.1 constEnv,
   c1_iteration_ceiling_termination.2.2.2 constEnv⟩

/-- C7 counterexample: in the research variant with 2 completed tool
rounds, non-empty search results and the Oracle replying `synthesize`,
the code returns `continue` without delegating (its threshold is 3
rounds), while the claimed rule order (threshold 2 for both variants)
would return `synthesize`. -/
theorem c7_research_threshold_counterexample :
    research_should_continue 1 [("k", "v")] 2 "synthesize" = "continue" ∧
    shouldContinueClaimed 6 2 1 [("k", "v")] 2 "synthesize" = "synthesize" :=
  ⟨rfl, rfl⟩

/-- C7 amended: `should_continue` evaluates its rules in order with a
variant-specific minimum-rounds threshold: below the ceiling it returns
`continue` when fewer than 2 (patient) respectively 3 (research) tool
rounds have completed or no search results have been gathered, and
otherwise delegates to the Oracle, returning `synthesize` exactly when
the reply contains the substring `synthesize` case-insensitively. -/
theorem c7_should_continue_rule_order :
    (∀ (it : Nat) (sr : List (String × String)) (tc : Nat) (r : String),
        patient_should_continue it sr tc r = shouldContinueClaimed 5 2 it sr tc r) ∧
    (∀ (it : Nat) (sr : List (String × String)) (tc : Nat) (r : String),
        research_should_continue it sr tc r = shouldContinueClaimed 6 3 it sr tc r) := by
  constructor
  · intro it sr tc r
    by_cases h1 : it ≥ 5
    · simp [patient_should_continue, shouldContinueClaimed, h1]
    · by_cases h2 : tc < 2
      · have h2' : ¬tc ≥ 2 := by omega
        simp [patient_should_continue, shouldContinueClaimed, h1, h2, h2']
      · have h2' : tc ≥ 2 := by omega
        by_cases h3 : sr.isEmpty
        · simp [patient_should_continue, shouldContinueClaimed, h1, h2, h2', h3]
        · simp [patient_should_continue, shouldContinueClaimed, h1, h2, h2', h3]
  · intro it sr tc r
    by_cases h1 : it ≥ 6
    · simp [research_should_continue, shouldContinueClaimed, h1]
    · by_cases h2 : tc < 3
      · have h2' : ¬tc ≥ 3 := by omega
        simp [research_should_continue, shouldContinueClaimed, h1, h2, h2']
      · have h2' : tc ≥ 3 := by omega
        by_cases h3 : sr.isEmpty
        · simp [research_should_continue, shouldContinueClaimed, h1, h2, h2', h3]
        · simp [research_should_continue, shouldContinueClaimed, h1, h2, h2', h3]

/-- C3 counterexample: when the LLM nominates two tool calls in one
planning step, `process_tools_node` (through langgraph ToolNode, which
executes every tool call attached to the last message) ingests two tool
results in that round — the second call is executed, not discarded.
Shown on both variants with concrete calls. -/
theorem c3_two_calls_counterexample :
    (research_process_tools (fun c => c.name) (fun i => toString i)
        [{ name := "plos_search", args := [] }, { name := "reddit_search", args := [] }]
        { search_results := [], tool_calls_history := [], iterations := 0 }).tool_calls_history
      = [("0", "plos_search", "general"), ("1", "reddit_search", "general")] ∧
    (patient_process_tools (fun c => c.name) (fun i => toString i)
        [{ name := "plos_search", args := [] }, { name := "reddit_search", args := [] }]
        { search_results := [], tool_calls_history := [], iterations := 0 }).tool_calls_history
      = [("0", "plos_search"), ("1", "reddit_search")] := by
  constructor <;> rfl

/-- C3 amended: in every ToolPlanning→ToolExecution round the
orchestrator executes every nominated tool call in nomination order, one
ingested result per call — the single-tool-per-round policy is only an
instruction in the planning prompt, not enforced by the orchestrator, so
a round with k nominated calls performs k tool invocations. -/
theorem c3_all_nominated_calls_executed :
    (∀ (execute : ToolCall → String) (tsOf : Nat → String) (calls : List ToolCall) (s : PState),
        (patient_process_tools execute tsOf calls s).tool_calls_history
          = s.tool_calls_history ++ pRecords tsOf 0 (toolNodeResults execute calls) ∧
        (patient_process_tools execute tsOf calls s).tool_calls_history.length
          = s.tool_calls_history.length + calls.length) ∧
    (∀ (execute : ToolCall → String) (tsOf : Nat → String) (calls : List ToolCall) (s : RState),
        (research_process_tools execute tsOf calls s).tool_calls_history
          = s.tool_calls_history ++ rRecords tsOf 0 (toolNodeResults execute calls) ∧
        (research_process_tools execute tsOf calls s).tool_calls_history.length
          = s.tool_calls_history.length + calls.length) := by
  constructor
  · intro execute tsOf calls s
    have h : (patient_process_tools execute tsOf calls s).tool_calls_history
        = s.tool_calls_history ++ pRecords tsOf 0 (toolNodeResults execute calls) := by
      simpa [patient_process_tools] using
        pIngest_history tsOf (toolNodeResults execute calls) 0 s
    refine ⟨h, ?_⟩
    rw [h, List.length_append, pRecords_length]
    simp [toolNodeResults]
  · intro execute tsOf calls s
    have h : (research_process_tools execute tsOf calls s).tool_calls_history
        = s.tool_calls_history ++ rRecords tsOf 0 (toolNodeResults execute calls) := by
      simpa [research_process_tools] using
        rIngest_history tsOf (toolNodeResults execute calls) 0 s
    refine ⟨h, ?_⟩
    rw [h, List.length_append, rRecords_length]
    simp [toolNodeResults]

/-- C8: ingesting a tool result whose content is the literal string
`not json` is total (the embedding of the `try`/`except` bodies is a
plain function): the payload is stored under a `general`-category key,
its history record carries category `general`, and citation extraction
over the resulting search results yields no citation whatever
`json.loads` does on other inputs. -/
theorem c8_not_json_ingestion_safe :
    classify "not json" = "general" ∧
    (research_process_tools (fun _ => "not json") (fun _ => "ts")
        [{ name := "tool", args := [] }]
        { search_results := [], tool_calls_history := [], iterations := 0 }).search_results
      = [("general_ts", "not json")] ∧
    (research_process_tools (fun _ => "not json") (fun _ => "ts")
        [{ name := "tool", args := [] }]
        { search_results := [], tool_calls_history := [], iterations := 0 }).tool_calls_history
      = [("ts", "not json", "general")] ∧
    (∀ loads : String → Option JVal,
        researchExtract loads [("general_ts", "not json")] = []) := by
  refine ⟨rfl, rfl, rfl, fun loads => rfl⟩

/-! ## C4: the external-evidence test -/

/-- A `json.loads` that raises on every input, matching the behaviour of
the real parser on non-JSON text. -/
def loadsNone : String → Option JVal := fun _ => none

/-- A 92-character plain-text payload: meaningful unstructured content
that does not start with a brace or bracket. -/
def plainTextPayload : String :=
  "Chemotherapy outcomes described at length in free text form, clearly exceeding fifty chars."

theorem payloadHasEvidence_eq_amended (loads : String → Option JVal) (raw : String) :
    payloadHasEvidence loads raw = payloadEvidenceAmended loads raw := by
  unfold payloadHasEvidence payloadEvidenceAmended
  by_cases h0 : raw = ""
  · subst h0; simp
  · have h0b : (raw == "") = false := by simpa using h0
    cases h1 : looksJson raw
    · simp [h0b, h1]
    · cases hl : loads raw with
      | none => simp [h0b, h1, hl, h0]
      | some v =>
          cases v <;> simp [h0b, h1, hl, h0, isDictWithTruthyArticles, isNonEmptyList]

/-- C4 counterexample: a stored unstructured text payload longer than 50
characters is not counted as external evidence by the code (the
50-character test sits in the `except` arm, reached only for payloads
that start with a brace or bracket yet fail to parse), while the claimed
characterisation counts it. -/
theorem c4_plain_text_counterexample :
    plainTextPayload.length > 50 ∧
    looksJson plainTextPayload = false ∧
    hasExternalEvidence loadsNone [("t1", plainTextPayload)] = false ∧
    hasExternalEvidenceClaimed loadsNone [("t1", plainTextPayload)] = true := by
  refine ⟨by decide, rfl, rfl, rfl⟩

/-- C4 amended: `hasExternalEvidence` is true exactly when some stored
payload is a non-empty string that starts with a brace or bracket and
either parses to a dict with a truthy `articles` entry or to a non-empty
list, or fails to parse and has stripped length above 50; payloads not
starting with a brace or bracket never count, so the 50-character
fallback only applies to JSON-looking but unparseable payloads. -/
theorem c4_has_external_evidence_characterisation
    (loads : String → Option JVal) (sr : List (String × String)) :
    hasExternalEvidence loads sr
      = sr.any (fun kv => payloadEvidenceAmended loads kv.2) := by
  unfold hasExternalEvidence
  simp only [payloadHasEvidence_eq_amended]

/-! ## C2: the synthesis fallback -/

/-- C2 theorem (amended form): in the research variant, whenever
`hasExternalEvidence` is false the fallback prompt is selected, the
fixed limited-data note replaces the evidence rendering in the prompt
(the empty evidence set is not passed in), and the citation list is
exactly the single Foundational Knowledge record. -/
theorem c2_research_fallback (loads : String → Option JVal)
    (sr : List (String × String)) (h : hasExternalEvidence loads sr = false) :
    (research_synthesis loads sr).promptMode = PromptMode.fallback ∧
    (research_synthesis loads sr).promptEvidence = PromptEvidence.limitedNote ∧
    (research_synthesis loads sr).sources_used = [foundationalCite] ∧
    ((research_synthesis loads sr).sources_used.filter
        (fun c => assocLookup c "type" == some "Foundational Knowledge")).length = 1 := by
  refine ⟨?_, ?_, ?_, ?_⟩ <;>
    simp [research_synthesis, h, foundationalCite, assocLookup]

/-- Witness for C2 at the concrete all-adapters-empty run: no stored
payloads at all. -/
theorem c2_research_fallback_witness :
    hasExternalEvidence loadsNone [] = false ∧
    ((research_synthesis loadsNone []).promptMode = PromptMode.fallback ∧
     (research_synthesis loadsNone []).promptEvidence = PromptEvidence.limitedNote ∧
     (research_synthesis loadsNone []).sources_used = [foundationalCite] ∧
     ((research_synthesis loadsNone []).sources_used.filter
        (fun c => assocLookup c "type" == some "Foundational Knowledge")).length = 1) :=
  ⟨rfl, c2_research_fallback loadsNone [] rfl⟩

/-- C2 counterexample: the patient variant has no fallback branch — with
no external evidence gathered it still builds its single (standard)
synthesis prompt over the rendered empty evidence set and produces no
Foundational Knowledge citation, falsifying the claim for patient
runs. -/
theorem c2_patient_no_fallback_counterexample :
    hasExternalEvidence loadsNone [] = false ∧
    (patient_synthesis loadsNone []).promptMode = PromptMode.standard ∧
    (patient_synthesis loadsNone []).promptEvidence = PromptEvidence.rendered [] ∧
    (patient_synthesis loadsNone []).sources_used = [] :=
  ⟨rfl, rfl, rfl, rfl⟩

/-! ## C6: citation extraction round-trip -/

theorem charsHasSub_nil_pat (ys : List Char) : charsHasSub [] ys = true := by
  cases ys <;> simp [charsHasSub, charsStartsWith]

theorem charsStartsWith_extend :
    ∀ (p s t : List Char), charsStartsWith p s = true → charsStartsWith p (s ++ t) = true := by
  intro p
  induction p with
  | nil => intro s t _; rfl
  | cons a as ih =>
      intro s t h
      cases s with
      | nil => simp [charsStartsWith] at h
      | cons b bs =>
          rw [List.cons_append]
          simp [charsStartsWith] at h ⊢
          exact ⟨h.1, ih bs t h.2⟩

theorem charsHasSub_append_right (p xs ys : List Char)
    (h : charsHasSub p xs = true) : charsHasSub p (xs ++ ys) = true := by
  induction xs with
  | nil =>
      cases p with
      | nil => exact charsHasSub_nil_pat ys
      | cons a as => simp [charsHasSub, charsStartsWith] at h
  | cons c rest ih =>
      rw [List.cons_append]
      unfold charsHasSub at h ⊢
      have h' : charsStartsWith p (c :: rest) = true ∨ charsHasSub p rest = true := by
        simpa using h
      rcases h' with hs | hr
      · have hext := charsStartsWith_extend p (c :: rest) ys hs
        rw [List.cons_append] at hext
        simp [hext]
      · simp [ih hr]

theorem charsHasSub_entry_data (k : String) (restData : List Char) :
    charsHasSub k.data ('\x27' :: (k.data ++ restData)) = true :=
  charsHasSub_cons _ _ _ (charsHasSub_self_append _ _)

theorem pyStrFields_contains (fs : List (String × JVal))
    (h : fs.any (fun kv => kv.1 == "subreddit") = true) :
    charsHasSub ("subreddit".data) (pyStrFields fs).data = true := by
  induction fs with
  | nil => simp at h
  | cons kv rest ih =>
      obtain ⟨k, v⟩ := kv
      rw [List.any_cons] at h
      cases rest with
      | nil =>
          have hk : k = "subreddit" := by simpa using h
          subst hk
          have hshape : (pyStrFields [("subreddit", v)]).data
              = '\x27' :: ("subreddit".data ++ ("\x27: " ++ pyStr v).data) := by
            show ((("\x27" ++ "subreddit") ++ "\x27: ") ++ pyStr v).data = _
            simp only [String.data_append, List.append_assoc,
              show ("\x27" : String).data = ['\x27'] from rfl, List.singleton_append]
            rfl
          rw [hshape]
          exact charsHasSub_entry_data "subreddit" _
      | cons f rs =>
          have h' : (k == "subreddit") = true
              ∨ ((f :: rs).any fun kv => kv.1 == "subreddit") = true := by
            simpa using h
          rcases h' with hk | hr
          · have hk' : k = "subreddit" := by simpa using hk
            subst hk'
            have hshape : (pyStrFields (("subreddit", v) :: f :: rs)).data
                = '\x27' :: ("subreddit".data
                    ++ ("\x27: " ++ pyStr v ++ ", " ++ pyStrFields (f :: rs)).data) := by
              show (((("\x27" ++ "subreddit") ++ "\x27: ") ++ pyStr v ++ ", ")
                  ++ pyStrFields (f :: rs)).data = _
              simp only [String.data_append, List.append_assoc,
                show ("\x27" : String).data = ['\x27'] from rfl, List.singleton_append]
              rfl
            rw [hshape]
            exact charsHasSub_entry_data "subreddit" _
          · have hshape : (pyStrFields ((k, v) :: f :: rs)).data
                = ("\x27" ++ k ++ "\x27: " ++ pyStr v ++ ", ").data ++ (pyStrFields (f :: rs)).data := by
              simp only [pyStrFields, String.data_append, List.append_assoc]
            rw [hshape]
            exact charsHasSub_append_left _ _ _ (ih hr)

theorem strContains_pyStr_subreddit (fs : List (String × JVal))
    (h : fs.any (fun kv => kv.1 == "subreddit") = true) :
    strContains (pyStr (.jobj fs)) "subreddit" = true := by
  unfold strContains
  have hdata : (pyStr (.jobj fs)).data
      = '\x7b' :: ((pyStrFields fs).data ++ ("\x7d" : String).data) := by
    simp [pyStr, String.data_append]
  rw [hdata]
  exact charsHasSub_cons _ _ _
    (charsHasSub_append_right _ _ _ (pyStrFields_contains fs h))

theorem all_subreddit_no_articles (posts : List JVal)
    (h : posts.all (isObjWithKey "subreddit") = true) :
    posts.any (jvalEqStr "articles") = false := by
  induction posts with
  | nil => rfl
  | cons p rest ih =>
      rw [List.all_cons, Bool.and_eq_true] at h
      have h1 := h.1
      have h2 := ih h.2
      cases p with
      | jnull => simp [isObjWithKey] at h1
      | jbool b => simp [isObjWithKey] at h1
      | jnum n => simp [isObjWithKey] at h1
      | jstr s => simp [isObjWithKey] at h1
      | jarr xs => simp [isObjWithKey] at h1
      | jobj fs => simp [List.any_cons, jvalEqStr, h2]

theorem citeFold_length_le (f : JVal → Except Unit (List (String × String))) :
    ∀ l : List JVal, (citeFold f l).length ≤ l.length := by
  intro l
  induction l with
  | nil => simp [citeFold]
  | cons x xs ih =>
      unfold citeFold
      cases f x with
      | error e => simp
      | ok c => simpa using ih

theorem researchRedditCite_type (x : JVal) (c : List (String × String))
    (h : researchRedditCite x = .ok c) :
    assocLookup c "type" = some "Reddit Patient Experience" := by
  unfold researchRedditCite at h
  split at h
  · split at h
    · cases h; rfl
    · exact Except.noConfusion h
  · exact Except.noConfusion h

theorem citeFold_reddit_types :
    ∀ l : List JVal,
      (citeFold researchRedditCite l).all
        (fun c => assocLookup c "type" == some "Reddit Patient Experience") = true := by
  intro l
  induction l with
  | nil => rfl
  | cons x xs ih =>
      unfold citeFold
      cases hx : researchRedditCite x with
      | error e => rfl
      | ok c =>
          rw [List.all_cons, ih, Bool.and_true]
          simp [researchRedditCite_type x c hx]

/-- The stored literature payload of the claim, as the raw string the
adapter returned and its parse. -/
def litRaw : String := "\x7b\"articles\":[\x7b\"id\":\"10.1/x\",\"title\":\"T\"\x7d]\x7d"

/-- Parse of `litRaw` under `json.loads`. -/
def litVal : JVal :=
  .jobj [("articles", .jarr [.jobj [("id", .jstr "10.1/x"), ("title", .jstr "T")]])]

/-- `json.loads` table for the literature payload. -/
def loadsLit : String → Option JVal := fun _ => some litVal

/-- C6: citation extraction round-trips the adapter payload shapes.  For
the stored literature payload `litRaw` both extractors yield exactly one
literature citation with title `T` and identifier `10.1/x` (typed
`PLOS Research Paper` in the research variant, `PLOS Research` in the
patient variant — the spec abstraction LiteraturePaper); and for any
stored payload parsing to a list of items each structurally carrying a
`subreddit` field, the research extractor emits at most 3 citations, all
typed `Reddit Patient Experience` (the spec abstraction
CommunityPost). -/
theorem c6_citation_roundtrip :
    (researchExtract loadsLit [("general_2025", litRaw)]
        = [[("type", "PLOS Research Paper"), ("title", "T"), ("id", "10.1/x"),
            ("category", "general")]] ∧
     patientExtract loadsLit [("2025-01-01", litRaw)]
        = [[("type", "PLOS Research"), ("title", "T"), ("id", "10.1/x")]]) ∧
    (∀ (loads : String → Option JVal) (raw k : String) (posts : List JVal),
        pyStartsWith raw "[" = true →
        loads raw = some (.jarr posts) →
        posts.all (isObjWithKey "subreddit") = true →
        (researchExtract loads [(k, raw)]).length ≤ 3 ∧
        (researchExtract loads [(k, raw)]).all
          (fun c => assocLookup c "type" == some "Reddit Patient Experience") = true) := by
  refine ⟨⟨rfl, rfl⟩, ?_⟩
  intro loads raw k posts h1 h2 h3
  have hlj : looksJson raw = true := by simp [looksJson, h1]
  have hone : researchExtract loads [(k, raw)] = researchExtractOne loads k raw := by
    simp [researchExtract]
  have hno : posts.any (jvalEqStr "articles") = false := all_subreddit_no_articles posts h3
  rw [hone]
  unfold researchExtractOne
  rw [hlj]
  simp only [if_true]
  rw [h2]
  cases posts with
  | nil => simp [pyContains]
  | cons x xs =>
      rw [List.all_cons, Bool.and_eq_true] at h3
      have hx := h3.1
      cases x with
      | jnull => simp [isObjWithKey] at hx
      | jbool b => simp [isObjWithKey] at hx
      | jnum n => simp [isObjWithKey] at hx
      | jstr s => simp [isObjWithKey] at hx
      | jarr ys => simp [isObjWithKey] at hx
      | jobj fs =>
          have hsub : strContains (pyStr (.jobj fs)) "subreddit" = true :=
            strContains_pyStr_subreddit fs (by simpa [isObjWithKey] using hx)
          simp only [pyContains, hno, hsub, if_true]
          constructor
          · calc (citeFold researchRedditCite ((JVal.jobj fs :: xs).take 3)).length
                ≤ ((JVal.jobj fs :: xs).take 3).length := citeFold_length_le _ _
              _ ≤ 3 := List.length_take_le 3 (JVal.jobj fs :: xs)
          · exact citeFold_reddit_types _

/-- Four community posts, each an object with a `subreddit` field. -/
def posts4 : List JVal :=
  [.jobj [("subreddit", .jstr "cancer"), ("title", .jstr "first story")],
   .jobj [("subreddit", .jstr "cancer"), ("title", .jstr "second story")],
   .jobj [("subreddit", .jstr "AskDocs"), ("title", .jstr "third story")],
   .jobj [("subreddit", .jstr "cancer"), ("title", .jstr "fourth story")]]

/-- `json.loads` table for the community payload. -/
def loadsPosts : String → Option JVal := fun _ => some (.jarr posts4)

/-- Witness for C6 at a concrete 4-post community payload: the
hypotheses hold and the extractor emits at most 3 community
citations. -/
theorem c6_citation_roundtrip_witness :
    pyStartsWith "[x]" "[" = true ∧
    loadsPosts "[x]" = some (.jarr posts4) ∧
    posts4.all (isObjWithKey "subreddit") = true ∧
    ((researchExtract loadsPosts [("k1", "[x]")]).length ≤ 3 ∧
     (researchExtract loadsPosts [("k1", "[x]")]).all
       (fun c => assocLookup c "type" == some "Reddit Patient Experience") = true) :=
  ⟨rfl, rfl, rfl, c6_citation_roundtrip.2 loadsPosts "[x]" "k1" posts4 rfl rfl rfl⟩

/-! ## C5 and C10: community-search cache behaviour -/

theorem find_map_overwrite (key : String) (results : List RedditPost) :
    ∀ cache : List (String × List RedditPost),
      cache.any (fun kv => kv.1 == key) = true →
      redditCacheGet (cache.map (fun kv => if kv.1 == key then (key, results) else kv)) key
        = some results := by
  intro cache
  induction cache with
  | nil => intro h; simp at h
  | cons kv rest ih =>
      intro h
      rw [List.map_cons]
      unfold redditCacheGet
      by_cases hk : (kv.1 == key) = true
      · rw [if_pos hk]
        rw [List.find?_cons_of_pos _ (by simp)]
        rfl
      · have hk' : (kv.1 == key) = false := by simpa using hk
        rw [if_neg hk]
        rw [List.find?_cons_of_neg _ (by simp [hk'])]
        have hrest : rest.any (fun kv => kv.1 == key) = true := by
          rw [List.any_cons, hk'] at h
          simpa using h
        have hih := ih hrest
        unfold redditCacheGet at hih
        exact hih

theorem find_append_new (key : String) (results : List RedditPost) :
    ∀ cache : List (String × List RedditPost),
      cache.any (fun kv => kv.1 == key) = false →
      redditCacheGet (cache ++ [(key, results)]) key = some results := by
  intro cache
  induction cache with
  | nil =>
      intro _
      rw [List.nil_append]
      unfold redditCacheGet
      rw [List.find?_cons_of_pos _ (by simp)]
      rfl
  | cons kv rest ih =>
      intro h
      rw [List.any_cons] at h
      have hk : (kv.1 == key) = false := by
        cases hkb : kv.1 == key
        · rfl
        · rw [hkb] at h; simp at h
      have hrest : rest.any (fun kv => kv.1 == key) = false := by
        cases hrb : rest.any (fun kv => kv.1 == key)
        · rfl
        · rw [hrb] at h; simp at h
      rw [List.cons_append]
      unfold redditCacheGet
      rw [List.find?_cons_of_neg _ (by simp [hk])]
      have hih := ih hrest
      unfold redditCacheGet at hih
      exact hih

theorem redditCacheGet_put (key : String) (results : List RedditPost)
    (cache : List (String × List RedditPost)) :
    redditCacheGet (redditCachePut cache key results) key = some results := by
  unfold redditCachePut
  by_cases hany : cache.any (fun kv => kv.1 == key) = true
  · rw [if_pos hany]
    exact find_map_overwrite key results cache hany
  · have hany' : cache.any (fun kv => kv.1 == key) = false := by
      cases hA : cache.any (fun kv => kv.1 == key)
      · rfl
      · exact absurd hA hany
    rw [if_neg hany]
    exact find_append_new key results cache hany'

theorem redditRun_miss_nonempty (st : RedditState) (q sub : String) (m : Nat) (so : String)
    (posts : List RedditPost) (now1 : Nat)
    (hmiss : redditCacheGet st.cache (redditCacheKey q sub m so) = none)
    (hne : (posts.map truncPost).isEmpty = false) :
    RedditSearch_run (Except.ok posts) now1 st q sub m so
      = (RedditOutput.posts (posts.map truncPost),
         { cache := redditCachePut st.cache (redditCacheKey q sub m so) (posts.map truncPost),
           results := posts.map truncPost, last_invoke := now1 }, true) := by
  simp only [RedditSearch_run]
  rw [hmiss]
  simp [redditRunRemote, hne]

theorem redditRunRemote_did (remote : Except String (List RedditPost)) (now : Nat)
    (st : RedditState) (key : String) : (redditRunRemote remote now st key).2.2 = true := by
  cases remote <;> rfl

/-- C5 amended: when the first of two identical CommunitySearch calls is
a cache miss whose remote search returns at least one post, the second
identical call returns the byte-identical payload, leaves the adapter
state unchanged, and performs no remote request (it is served from the
cache keyed by the full query tuple) — whatever the remote would have
done on the second call. -/
theorem c5_cache_idempotence_nonempty :
    ∀ (st : RedditState) (q sub : String) (m : Nat) (so : String)
      (posts : List RedditPost) (now1 : Nat),
      redditCacheGet st.cache (redditCacheKey q sub m so) = none →
      (posts.map truncPost).isEmpty = false →
      ∀ (remote2 : Except String (List RedditPost)) (now2 : Nat),
        RedditSearch_run remote2 now2
            (RedditSearch_run (Except.ok posts) now1 st q sub m so).2.1 q sub m so
          = ((RedditSearch_run (Except.ok posts) now1 st q sub m so).1,
             (RedditSearch_run (Except.ok posts) now1 st q sub m so).2.1, false) := by
  intro st q sub m so posts now1 hmiss hne remote2 now2
  rw [redditRun_miss_nonempty st q sub m so posts now1 hmiss hne]
  simp only [RedditSearch_run]
  rw [show redditCacheGet
        (redditCachePut st.cache (redditCacheKey q sub m so) (posts.map truncPost))
        (redditCacheKey q sub m so) = some (posts.map truncPost) from
      redditCacheGet_put _ _ _]
  simp [hne]

/-- A one-post remote result used by the cache witnesses. -/
def onePost : RedditPost :=
  { subreddit := "cancer", title := "remission story", score := 12, url := "u",
    num_comments := 4, created_utc := 100, selftext := "long recovery account" }

/-- The adapter state at the start of a run: empty cache. -/
def redditSt0 : RedditState := { cache := [], results := [], last_invoke := 0 }

/-- Witness for C5 at a concrete non-empty first result: the second
identical call is served from the cache even though the remote is down,
and returns the identical payload. -/
theorem c5_cache_idempotence_nonempty_witness :
    redditCacheGet redditSt0.cache (redditCacheKey "lung cancer" "cancer" 3 "relevance") = none ∧
    ([onePost].map truncPost).isEmpty = false ∧
    RedditSearch_run (Except.error "remote down") 20
        (RedditSearch_run (Except.ok [onePost]) 10 redditSt0 "lung cancer" "cancer" 3 "relevance").2.1
        "lung cancer" "cancer" 3 "relevance"
      = ((RedditSearch_run (Except.ok [onePost]) 10 redditSt0 "lung cancer" "cancer" 3 "relevance").1,
         (RedditSearch_run (Except.ok [onePost]) 10 redditSt0 "lung cancer" "cancer" 3 "relevance").2.1,
         false) :=
  ⟨rfl, rfl,
   c5_cache_idempotence_nonempty redditSt0 "lung cancer" "cancer" 3 "relevance" [onePost] 10
     rfl rfl (Except.error "remote down") 20⟩

/-- C5 counterexample: when the first identical call finds no posts, the
result is not cached and the second identical call does perform a remote
request, contradicting the unconditional claim. -/
theorem c5_empty_result_counterexample :
    (RedditSearch_run (Except.ok []) 1 redditSt0 "rare query" "cancer" 3 "relevance").1
      = RedditOutput.posts [] ∧
    (RedditSearch_run (Except.ok []) 2
        (RedditSearch_run (Except.ok []) 1 redditSt0 "rare query" "cancer" 3 "relevance").2.1
        "rare query" "cancer" 3 "relevance").2.2 = true :=
  ⟨rfl, rfl⟩

/-- C10: the adapter caches only non-empty results and never serves a
cached empty list: a cache-miss call whose remote search returns no
posts leaves the cache unchanged, performs a remote request, and the
repeated identical call performs a remote request again; and whenever a
cached entry is the empty list, the call goes remote. -/
theorem c10_empty_results_not_cached :
    (∀ (st : RedditState) (q sub : String) (m : Nat) (so : String) (now : Nat),
      redditCacheGet st.cache (redditCacheKey q sub m so) = none →
      (RedditSearch_run (Except.ok []) now st q sub m so).2.1.cache = st.cache ∧
      (RedditSearch_run (Except.ok []) now st q sub m so).2.2 = true ∧
      ∀ (remote2 : Except String (List RedditPost)) (now2 : Nat),
        (RedditSearch_run remote2 now2 (RedditSearch_run (Except.ok []) now st q sub m so).2.1
            q sub m so).2.2 = true) ∧
    (∀ (st : RedditState) (q sub : String) (m : Nat) (so : String) (now : Nat)
        (remote : Except String (List RedditPost)),
      redditCacheGet st.cache (redditCacheKey q sub m so) = some [] →
      (RedditSearch_run remote now st q sub m so).2.2 = true) := by
  constructor
  · intro st q sub m so now hmiss
    have hrun : RedditSearch_run (Except.ok []) now st q sub m so
        = (RedditOutput.posts [],
           { cache := st.cache, results := [], last_invoke := now }, true) := by
      simp only [RedditSearch_run]
      rw [hmiss]
      rfl
    refine ⟨by rw [hrun], by rw [hrun], ?_⟩
    intro remote2 now2
    rw [hrun]
    simp only [RedditSearch_run]
    rw [show redditCacheGet
          (({ cache := st.cache, results := [], last_invoke := now } : RedditState)).cache
          (redditCacheKey q sub m so) = none from hmiss]
    exact redditRunRemote_did _ _ _ _
  · intro st q sub m so now remote hsome
    simp only [RedditSearch_run]
    rw [hsome]
    exact redditRunRemote_did _ _ _ _

/-- Witness for C10 at a concrete query with an empty remote result. -/
theorem c10_empty_results_not_cached_witness :
    (redditCacheGet redditSt0.cache (redditCacheKey "rare query" "cancer" 3 "relevance") = none ∧
     ((RedditSearch_run (Except.ok []) 5 redditSt0 "rare query" "cancer" 3 "relevance").2.1.cache
        = redditSt0.cache ∧
      (RedditSearch_run (Except.ok []) 5 redditSt0 "rare query" "cancer" 3 "relevance").2.2 = true ∧
      ∀ (remote2 : Except String (List RedditPost)) (now2 : Nat),
        (RedditSearch_run remote2 now2
            (RedditSearch_run (Except.ok []) 5 redditSt0 "rare query" "cancer" 3 "relevance").2.1
            "rare query" "cancer" 3 "relevance").2.2 = true)) ∧
    (redditCacheGet [((redditCacheKey "q2" "cancer" 3 "top"), ([] : List RedditPost))]
        (redditCacheKey "q2" "cancer" 3 "top") = some [] ∧
     (RedditSearch_run (Except.ok [onePost]) 7
        { cache := [((redditCacheKey "q2" "cancer" 3 "top"), [])], results := [], last_invoke := 0 }
        "q2" "cancer" 3 "top").2.2 = true) :=
  ⟨⟨rfl, c10_empty_results_not_cached.1 redditSt0 "rare query" "cancer" 3 "relevance" 5 rfl⟩,
   ⟨rfl, c10_empty_results_not_cached.2
      { cache := [((redditCacheKey "q2" "cancer" 3 "top"), [])], results := [], last_invoke := 0 }
      "q2" "cancer" 3 "top" 7 (Except.ok [onePost]) rfl⟩⟩

/-! ## C9: failure path of `query` -/

/-- C9 counterexample: on an Oracle failure with exception text `boom`,
both variants place the raw exception rendering into the returned answer
object (under `additional_data.error`), so the claim that raw exceptions
are never returned in the answer object is false. -/
theorem c9_error_in_answer_counterexample :
    ((patient_query_failure "boom" 0).additional_data.getD []).any
        (fun kv => kv.1 == "error" && kv.2 == "boom") = true ∧
    ((research_query_failure "boom" 0).additional_data.getD []).any
        (fun kv => kv.1 == "error" && kv.2 == "boom") = true :=
  ⟨rfl, rfl⟩

/-- C9 amended: on an unrecoverable exception during the run, the caller
still receives a well-formed answer object whose content is the fixed
user-safe apology (independent of the exception), whose additional data
carries status `failed`, with no final answer and no sources — but the
exception rendering is included in the answer object under the
`error` key of `additional_data` (no stack trace is included).  Assumes
the conversation-store append succeeds. -/
theorem c9_failure_answer_shape :
    ∀ (excMsg : String) (ts : Nat),
      (patient_query_failure excMsg ts).content = PATIENT_APOLOGY ∧
      assocLookup ((patient_query_failure excMsg ts).additional_data.getD []) "status"
        = some "failed" ∧
      assocLookup ((patient_query_failure excMsg ts).additional_data.getD []) "error"
        = some excMsg ∧
      (patient_query_failure excMsg ts).sources = none ∧
      (research_query_failure excMsg ts).content = RESEARCH_ERROR_RESPONSE ∧
      assocLookup ((research_query_failure excMsg ts).additional_data.getD []) "status"
        = some "failed" ∧
      assocLookup ((research_query_failure excMsg ts).additional_data.getD []) "error"
        = some excMsg := by
  intro excMsg ts
  exact ⟨rfl, rfl, rfl, rfl, rfl, rfl, rfl⟩
